import Mathlib

/-!
Verification development for the hashtrade trading core.

Shallow embedding of the pure algorithmic parts of the repository:
`tools/position.py` (position sizing and leverage selection),
`tools/analysis.py` (entry-signal scoring, single-candle sweep detection),
`tools/liquidity.py` (multi-candle sweep detection, opposing liquidity,
multi-timeframe composition), and `agent3.py` (size-based partial-close
inference).  Python floats are modelled as exact rationals (`ℚ`);
Python `round(x, d)` is modelled as round-half-to-even on `x * 10^d`;
Python `int(x)` is truncation toward zero; caught runtime exceptions
(division by zero, `None` arithmetic, indexing an empty list) are modelled
as an explicit `exn` result constructor, mirroring the `except` handlers
that turn them into error dicts.
-/

namespace Hashtrade

/-- Python `round` rounds half to even (banker's rounding). -/
def roundHalfEven (x : ℚ) : ℤ :=
  if x - ⌊x⌋ < 1/2 then ⌊x⌋
  else if 1/2 < x - ⌊x⌋ then ⌊x⌋ + 1
  else if ⌊x⌋ % 2 = 0 then ⌊x⌋ else ⌊x⌋ + 1

/-- Python `round(x, d)` on the exact-rational model. -/
def pyRound (x : ℚ) (d : ℕ) : ℚ :=
  (roundHalfEven (x * 10 ^ d) : ℚ) / 10 ^ d

/-- Python `int(x)`: truncation toward zero. -/
def pyTrunc (x : ℚ) : ℤ :=
  if 0 ≤ x then ⌊x⌋ else -⌊-x⌋

/-- Python negative-capable list indexing `l[i]` (total model; all uses in
the embedded code are in range, out-of-range indices default to 0). -/
def pyGet (l : List ℚ) (i : ℤ) : ℚ :=
  if i < 0 then l.getD (l.length - (-i).toNat) 0 else l.getD i.toNat 0

/-- Python slice `l[-n:]`. -/
def takeLast (n : ℕ) (l : List α) : List α :=
  l.drop (l.length - n)

/-- Python `s.upper()` (ASCII, which is all the code compares against). -/
def pyUpper (s : String) : String :=
  ⟨s.data.map Char.toUpper⟩

/-- Python `s.lower()` (ASCII, which is all the code compares against). -/
def pyLower (s : String) : String :=
  ⟨s.data.map Char.toLower⟩

theorem roundHalfEven_ge_floor (x : ℚ) : ⌊x⌋ ≤ roundHalfEven x := by
  unfold roundHalfEven
  split_ifs <;> omega

theorem roundHalfEven_intCast (k : ℤ) : roundHalfEven (k : ℚ) = k := by
  unfold roundHalfEven
  rw [Int.floor_intCast]
  norm_num

/-- If `m * 10^d` is an integer and `m ≤ x`, then rounding `x` to `d`
decimal places stays at or above `m`. -/
theorem pyRound_ge_of_le {m x : ℚ} {d : ℕ} {k : ℤ}
    (hk : m * 10 ^ d = (k : ℚ)) (h : m ≤ x) : m ≤ pyRound x d := by
  unfold pyRound
  rw [le_div_iff₀ (by positivity : (0:ℚ) < 10 ^ d), hk]
  have h1 : (k : ℚ) ≤ x * 10 ^ d := by
    rw [← hk]
    exact mul_le_mul_of_nonneg_right h (by positivity)
  have h2 : k ≤ ⌊x * 10 ^ d⌋ := Int.le_floor.mpr h1
  exact_mod_cast le_trans h2 (roundHalfEven_ge_floor _)

/-- Rounding a value that is already exact at `d` decimals is the identity. -/
theorem pyRound_eq_self {m : ℚ} {d : ℕ} {k : ℤ}
    (hk : m * 10 ^ d = (k : ℚ)) : pyRound m d = m := by
  unfold pyRound
  rw [hk, roundHalfEven_intCast, ← hk]
  field_simp

/-- `int()` truncation is not far below its argument. -/
theorem pyTrunc_gt_sub_one (x : ℚ) : x - 1 < (pyTrunc x : ℚ) := by
  unfold pyTrunc
  split_ifs with h
  · exact Int.sub_one_lt_floor x
  · have h1 : (⌊-x⌋ : ℚ) ≤ -x := Int.floor_le (-x)
    push_cast
    linarith

/-- Trade direction. -/
inductive Direction
  | LONG
  | SHORT
deriving DecidableEq, Repr

/-- Non-fatal warnings emitted by `calculate_position` (the warning text
interpolates computed numbers; only the warning kind is modelled). -/
inductive Warning
  | marginBelowMin
  | marginExceedsMaxPct
  | slTooWide
  | slTooTight
deriving DecidableEq, Repr

/-- Result of a tool call: `invalid` for an explicit pre-computation
validation rejection (a `return {"status": "error", ...}` statement),
`exn` for a runtime exception caught by the surrounding `except` handler,
`ok` for a success payload. -/
inductive ToolResult (α : Type)
  | invalid (msg : String)
  | exn (msg : String)
  | ok (r : α)
deriving DecidableEq

/-- Is the result an explicit validation rejection? -/
def ToolResult.isInvalid : ToolResult α → Bool
  | .invalid _ => true
  | _ => false

/-- Is the result a success? -/
def ToolResult.isOk : ToolResult α → Bool
  | .ok _ => true
  | _ => false

/-- Success payload of `calculate_position` (`tools/position.py`).
`sl_distance_pct` is the returned percentage (already `× 100`). -/
structure FixedOk where
  direction : Direction
  entry_price : ℚ
  stop_loss : ℚ
  sl_distance_pct : ℚ
  risk_amount : ℚ
  risk_percent : ℚ
  leverage : ℤ
  margin_required : ℚ
  position_size : ℚ
  quantity : ℚ
  tp1_price : ℚ
  tp2_price : ℚ
  profit_at_1pct : ℚ
  warnings : List Warning
deriving DecidableEq

/-- `tools/position.py::calculate_position` — fixed-risk position sizing.
Python decides direction by `if entry > stop: LONG elif entry < stop: SHORT
else: error`; the equality rejection is hoisted in front of the direction
`if`, which is equivalent.  The only runtime exception reachable past
validation is a zero divisor `sl_distance_pct * leverage` (`leverage = 0`),
modelled by the explicit `exn` branch. -/
def calculate_position (balance entry_price stop_loss : ℚ)
    (risk_percent : ℚ := 5) (leverage : ℤ := 20) : ToolResult FixedOk :=
  if balance ≤ 0 then .invalid "Balance must be positive"
  else if entry_price ≤ 0 ∨ stop_loss ≤ 0 then
    .invalid "Entry price and stop-loss must be positive"
  else if entry_price = stop_loss then
    .invalid "Entry price and stop-loss cannot be the same"
  else
    let direction : Direction :=
      if stop_loss < entry_price then .LONG else .SHORT
    let sl_distance := |entry_price - stop_loss|
    let sl_distance_pct := sl_distance / entry_price
    let risk_amount := balance * (risk_percent / 100)
    if sl_distance_pct * (leverage : ℚ) = 0 then
      .exn "Position calculation error: float division by zero"
    else
      let position_margin := risk_amount / (sl_distance_pct * (leverage : ℚ))
      let real_position := position_margin * (leverage : ℚ)
      let quantity := real_position / entry_price
      let profit_at_1pct := real_position * (1/100)
      let tp1_price :=
        if direction = .LONG then entry_price * (101/100)
        else entry_price * (99/100)
      let tp2_price :=
        if direction = .LONG then entry_price * (102/100)
        else entry_price * (98/100)
      let warnings : List Warning :=
        (if position_margin < 5 then [.marginBelowMin] else []) ++
        (if balance * (50/100) < position_margin then [.marginExceedsMaxPct] else []) ++
        (if 5/100 < sl_distance_pct then [.slTooWide] else []) ++
        (if sl_distance_pct < 2/1000 then [.slTooTight] else [])
      .ok {
        direction := direction
        entry_price := entry_price
        stop_loss := stop_loss
        sl_distance_pct := sl_distance_pct * 100
        risk_amount := risk_amount
        risk_percent := risk_percent
        leverage := leverage
        margin_required := position_margin
        position_size := real_position
        quantity := quantity
        tp1_price := tp1_price
        tp2_price := tp2_price
        profit_at_1pct := profit_at_1pct
        warnings := warnings
      }

/-- `tools/position.py::select_leverage` — returns the recommended
leverage (the other dict fields echo the inputs). -/
def select_leverage (sl_distance_pct : ℚ) (volatility : String := "normal") : ℤ :=
  let base_leverage : ℚ :=
    if sl_distance_pct ≤ 1/2 then 30
    else if sl_distance_pct ≤ 1 then 25
    else if sl_distance_pct ≤ 3/2 then 20
    else if sl_distance_pct ≤ 2 then 15
    else 10
  let volatility_multiplier : ℚ :=
    if pyLower volatility = "low" then 12/10
    else if pyLower volatility = "normal" then 1
    else if pyLower volatility = "high" then 7/10
    else 1
  let recommended := pyTrunc (base_leverage * volatility_multiplier)
  max 10 (min 30 recommended)

/-- The spec's wording of the leverage selector: breakpoint base times
volatility factor, clamped to [10, 30] — with no integer truncation. -/
def select_leverage_specFormula (sl_distance_pct : ℚ) (volatility : String) : ℚ :=
  let base_leverage : ℚ :=
    if sl_distance_pct ≤ 1/2 then 30
    else if sl_distance_pct ≤ 1 then 25
    else if sl_distance_pct ≤ 3/2 then 20
    else if sl_distance_pct ≤ 2 then 15
    else 10
  let volatility_multiplier : ℚ :=
    if pyLower volatility = "low" then 12/10
    else if pyLower volatility = "normal" then 1
    else if pyLower volatility = "high" then 7/10
    else 1
  max 10 (min 30 (base_leverage * volatility_multiplier))

/-- `tools/position.py::calculate_position_dynamic` — per-symbol minimum
tradable quantity table (`min_qty` dict with `.get(symbol.upper(), 0.01)`). -/
def min_qty (symbol : String) : ℚ :=
  if pyUpper symbol = "BTCUSDT" then 1/1000
  else if pyUpper symbol = "ETHUSDT" then 1/100
  else if pyUpper symbol = "SOLUSDT" then 1/10
  else if pyUpper symbol = "XRPUSDT" then 10
  else if pyUpper symbol = "CRVUSDT" then 10
  else 1/100

/-- Success payload of `calculate_position_dynamic`; fields carry the
`round(..., n)` applied by the code on output. -/
structure DynOk where
  direction : Direction
  entry_price : ℚ
  stop_loss : ℚ
  take_profit : ℚ
  sl_distance_pct : ℚ
  tp_distance_pct : ℚ
  rr_ratio : ℚ
  risk_amount : ℚ
  risk_percent : ℚ
  position_size_usd : ℚ
  quantity : ℚ
  leverage : ℤ
  margin_required : ℚ
  potential_profit : ℚ
  potential_loss : ℚ
deriving DecidableEq

/-- `tools/position.py::calculate_position_dynamic` — dynamic sizing with
strategy-supplied SL/TP.  `entry == stop` passes the direction `if/else`
as SHORT with a zero stop distance; the division
`risk_amount / (sl_distance_pct / 100)` then raises `ZeroDivisionError`,
caught by the `except` handler (`exn` branch). -/
def calculate_position_dynamic (balance entry_price stop_loss take_profit : ℚ)
    (risk_percent : ℚ := 10) (symbol : String := "BTCUSDT") : ToolResult DynOk :=
  if balance ≤ 0 ∨ entry_price ≤ 0 ∨ stop_loss ≤ 0 ∨ take_profit ≤ 0 then
    .invalid "All values must be positive"
  else
    let direction : Direction :=
      if stop_loss < entry_price then .LONG else .SHORT
    let sl_distance :=
      if stop_loss < entry_price then entry_price - stop_loss
      else stop_loss - entry_price
    let tp_distance :=
      if stop_loss < entry_price then take_profit - entry_price
      else entry_price - take_profit
    if direction = .LONG ∧ take_profit ≤ entry_price then
      .invalid "LONG: TP must be above entry"
    else if direction = .SHORT ∧ entry_price ≤ take_profit then
      .invalid "SHORT: TP must be below entry"
    else
      let sl_distance_pct := sl_distance / entry_price * 100
      let tp_distance_pct := tp_distance / entry_price * 100
      let rr_ratio :=
        if 0 < sl_distance_pct then tp_distance_pct / sl_distance_pct else 0
      let risk_amount := balance * (risk_percent / 100)
      if sl_distance_pct / 100 = 0 then
        .exn "Position calculation error: float division by zero"
      else
        let position_size_usd := risk_amount / (sl_distance_pct / 100)
        let quantity := position_size_usd / entry_price
        let max_margin := balance * (5/10)
        let min_leverage :=
          if 0 < max_margin then position_size_usd / max_margin else 10
        let recommended_leverage : ℤ := max 10 (min 50 (pyTrunc min_leverage + 5))
        let margin_required := position_size_usd / (recommended_leverage : ℚ)
        let min_qty_for_partial := min_qty symbol * 2
        let quantity2 :=
          if quantity < min_qty_for_partial then min_qty_for_partial else quantity
        let position_size_usd2 :=
          if quantity < min_qty_for_partial then quantity2 * entry_price
          else position_size_usd
        let actual_risk :=
          if quantity < min_qty_for_partial then
            position_size_usd2 * (sl_distance_pct / 100)
          else risk_amount
        let actual_risk_pct :=
          if quantity < min_qty_for_partial then actual_risk / balance * 100
          else risk_percent
        let potential_profit := position_size_usd2 * (tp_distance_pct / 100)
        let potential_loss := position_size_usd2 * (sl_distance_pct / 100)
        .ok {
          direction := direction
          entry_price := entry_price
          stop_loss := stop_loss
          take_profit := take_profit
          sl_distance_pct := pyRound sl_distance_pct 2
          tp_distance_pct := pyRound tp_distance_pct 2
          rr_ratio := pyRound rr_ratio 2
          risk_amount := pyRound actual_risk 2
          risk_percent := pyRound actual_risk_pct 2
          position_size_usd := pyRound position_size_usd2 2
          quantity := pyRound quantity2 6
          leverage := recommended_leverage
          margin_required := pyRound margin_required 2
          potential_profit := pyRound potential_profit 2
          potential_loss := pyRound potential_loss 2
        }

/-- The spec's leverage formula for the dynamic sizer:
`clamp(ceil(notional / (balance * 0.5)) + 5, 10, 50)`. -/
def dyn_leverage_specFormula (balance notional : ℚ) : ℤ :=
  max 10 (min 50 (⌈notional / (balance * (5/10))⌉ + 5))

/-- Leverage of a successful dynamic sizing result, if any. -/
def dynLeverage (res : ToolResult DynOk) : Option ℤ :=
  match res with
  | .ok r => some r.leverage
  | _ => none

/-- Reported margin of a successful dynamic sizing result, if any. -/
def dynMargin (res : ToolResult DynOk) : Option ℚ :=
  match res with
  | .ok r => some r.margin_required
  | _ => none

/-! ## Entry-signal scoring (`tools/analysis.py::check_entry_signal`) -/

/-- Trend label produced by `detect_market_structure`. -/
inductive Trend
  | uptrend
  | downtrend
  | ranging
  | undefined
deriving DecidableEq, Repr

/-- EMA trend label produced by `analyze_market`. -/
inductive EmaTrend
  | bullish
  | bearish
  | neutral
deriving DecidableEq, Repr

/-- Sweep polarity (`bullish_sweep`/`bearish_sweep` strings in
`analysis.py`, `bullish`/`bearish` in `liquidity.py`). -/
inductive SweepKind
  | bullish
  | bearish
deriving DecidableEq, Repr

/-- An entry zone as consumed by `check_entry_signal`
(only `entry` and `stop` are read). -/
structure EntryZone where
  entry : ℚ
  stop : ℚ
deriving DecidableEq, Repr

/-- The `entry_zones` sub-dict of an `analyze_market` result. -/
structure EntryZones where
  has_zone : Bool
  zones : List EntryZone
deriving DecidableEq, Repr

/-- The fields of an `analyze_market` result dict that
`check_entry_signal` reads.  `Option` fields model JSON `null` values
(`rsi`, `atr`, `atr_pct`, `ema_trend` can all be `None`). -/
structure AnalysisData where
  trend : Trend
  ema_trend : Option EmaTrend
  rsi : Option ℚ
  atr : Option ℚ
  atr_pct : Option ℚ
  volume_ratio : ℚ
  sweep_detected : Bool
  sweep_type : Option SweepKind
  entry_zones : EntryZones
  current_price : ℚ
deriving DecidableEq, Repr

/-- Result of `check_entry_signal`.  `no_trade` carries the reason kind
and the score when one is reported (the early ranging rejection reports
none); `exn` models a runtime exception caught by the handler
(`IndexError` on an empty zone list, `TypeError` on `None` arithmetic,
`ZeroDivisionError` on a zero entry price). -/
inductive SignalResult
  | exn (msg : String)
  | no_trade (reason : String) (score : Option ℕ)
  | entry (direction : Direction) (entry_price stop_loss sl_distance_pct : ℚ)
      (score : ℕ)
deriving DecidableEq, Repr

/-- Is the result a NO_TRADE recommendation? -/
def SignalResult.isNoTrade : SignalResult → Bool
  | .no_trade _ _ => true
  | _ => false

/-- Is the result an ENTRY signal? -/
def SignalResult.isEntry : SignalResult → Bool
  | .entry _ _ _ _ _ => true
  | _ => false

/-- Second half of `check_entry_signal` (from the volume check on):
shared by the zone and no-zone paths. -/
def finishSignal (d : AnalysisData) (score : ℕ) (zone : Option EntryZone) :
    SignalResult :=
  let score' := score + (if 12/10 < d.volume_ratio then 1 else 0)
  if 5 ≤ score' then
    let direction : Direction := if d.trend = .uptrend then .LONG else .SHORT
    match zone with
    | some z =>
        .entry direction z.entry z.stop (|z.entry - z.stop| / z.entry * 100) score'
    | none =>
        match d.atr with
        | none => .exn "Signal check error"
        | some a =>
            if d.current_price = 0 then .exn "Signal check error"
            else
              let stop_loss :=
                if direction = .LONG then d.current_price - a * (3/2)
                else d.current_price + a * (3/2)
              .entry direction d.current_price stop_loss
                (|d.current_price - stop_loss| / d.current_price * 100) score'
  else .no_trade "Score too low" (some score')

/-- Evidence points awarded by steps 2–4 of `check_entry_signal`
(EMA confirmation, RSI, liquidity sweep), given that the trend gate
passed. -/
def midScore (d : AnalysisData) : ℕ :=
  (if (d.trend = .uptrend ∧ d.ema_trend = some .bullish) ∨
      (d.trend = .downtrend ∧ d.ema_trend = some .bearish) then 1 else 0) +
  (match d.rsi with
   | some r =>
       if r ≠ 0 then
         if d.trend = .uptrend ∧ r < 70 then 1
         else if d.trend = .downtrend ∧ 30 < r then 1
         else 0
       else 0
   | none => 0) +
  (if d.sweep_detected ∧
      ((d.trend = .uptrend ∧ d.sweep_type = some .bullish) ∨
       (d.trend = .downtrend ∧ d.sweep_type = some .bearish)) then 3 else 0)

/-- `tools/analysis.py::check_entry_signal` on an already-parsed analysis
record.  The Python `except` handler turns `IndexError` (`zones[0]` with
`has_zone` set but an empty list), `TypeError` (`None * 1.5` when
`atr_pct` or `atr` is null) and `ZeroDivisionError` (zero zone entry /
current price) into an error dict, modelled by `exn`. -/
def check_entry_signal (d : AnalysisData) : SignalResult :=
  if ¬(d.trend = .uptrend ∨ d.trend = .downtrend) then
    .no_trade "No clear trend - market is ranging" none
  else
    let score := 2 + midScore d
    if d.entry_zones.has_zone then
      match d.entry_zones.zones with
      | [] => .exn "Signal check error"
      | z :: _ =>
          if z.entry = 0 then .exn "Signal check error"
          else finishSignal d (score + 2) (some z)
    else
      match d.atr_pct with
      | none => .exn "Signal check error"
      | some _ => finishSignal d score none

/-- The total evidence score of `check_entry_signal` (the value its
accumulation reaches when no exception interrupts it). -/
def entry_score (d : AnalysisData) : ℕ :=
  2 + midScore d + (if d.entry_zones.has_zone then 2 else 0) +
  (if 12/10 < d.volume_ratio then 1 else 0)

/-- The analysis record is free of the degenerate shapes that make
`check_entry_signal` raise: a zone list consistent with `has_zone` (with
a nonzero zone entry price) when a zone is claimed, a numeric `atr_pct`
otherwise. -/
def AnalysisData.wellFormed (d : AnalysisData) : Prop :=
  (d.entry_zones.has_zone = true →
     ∃ z zs, d.entry_zones.zones = z :: zs ∧ z.entry ≠ 0) ∧
  (d.entry_zones.has_zone = false → d.atr_pct ≠ none)

/-! ## Sweep detection -/

/-- A swing point (`{"index": i, "price": p}`). -/
structure SwingPt where
  index : ℕ
  price : ℚ
deriving DecidableEq, Repr

/-- A sweep found by `tools/liquidity.py::detect_liquidity_sweep`:
`offset` is the `candle_offset` of the sweep candle (Python index
`-(offset+1)`), `confirmation` the computed confirmation flag. -/
structure SweepFound where
  stype : SweepKind
  level : ℚ
  wick : ℚ
  offset : ℕ
  confirmation : Bool
deriving DecidableEq, Repr

/-- One iteration of the multi-candle sweep scan of
`tools/liquidity.py::detect_liquidity_sweep` at a given `candle_offset`:
test the candle at Python index `-(offset+1)` against the last five swing
highs (newest first), then the last five swing lows. -/
def checkSweepAt (opens highs lows closes : List ℚ)
    (swingHighs swingLows : List SwingPt) (current_price : ℚ)
    (offset : ℕ) : Option SweepFound :=
  let idx : ℤ := -((offset : ℤ) + 1)
  match (takeLast 5 swingHighs).reverse.find?
      (fun sh => decide (sh.price < pyGet highs idx) &&
                 decide (pyGet closes idx < sh.price)) with
  | some sh =>
      let confirmation : Bool :=
        if offset = 0 then decide (pyGet closes idx < pyGet opens idx)
        else if idx + 1 < 0 then
          decide (pyGet closes (idx + 1) < pyGet opens (idx + 1))
        else decide (pyGet closes (-1) < current_price)
      some ⟨.bearish, sh.price, pyGet highs idx, offset, confirmation⟩
  | none =>
      match (takeLast 5 swingLows).reverse.find?
          (fun sl => decide (pyGet lows idx < sl.price) &&
                     decide (sl.price < pyGet closes idx)) with
      | some sl =>
          let confirmation : Bool :=
            if offset = 0 then decide (pyGet opens idx < pyGet closes idx)
            else if idx + 1 < 0 then
              decide (pyGet opens (idx + 1) < pyGet closes (idx + 1))
            else decide (current_price < pyGet closes (-1))
          some ⟨.bullish, sl.price, pyGet lows idx, offset, confirmation⟩
      | none => none

/-- The `for candle_offset in range(lookback_candles)` loop of
`detect_liquidity_sweep`, breaking when `abs(idx) >= len(closes)` and
stopping at the first sweep found. -/
def findSweepAux (opens highs lows closes : List ℚ)
    (swingHighs swingLows : List SwingPt) (current_price : ℚ) :
    ℕ → ℕ → Option SweepFound
  | _, 0 => none
  | offset, fuel + 1 =>
    if closes.length ≤ offset + 1 then none
    else
      match checkSweepAt opens highs lows closes swingHighs swingLows
          current_price offset with
      | some f => some f
      | none =>
          findSweepAux opens highs lows closes swingHighs swingLows
            current_price (offset + 1) fuel

/-- The multi-candle sweep scan of
`tools/liquidity.py::detect_liquidity_sweep`, on already-fetched candle
lists and already-computed swing points (`current_price = closes[-1]`). -/
def detect_liquidity_sweep_scan (opens highs lows closes : List ℚ)
    (swingHighs swingLows : List SwingPt) (lookback_candles : ℕ := 5) :
    Option SweepFound :=
  findSweepAux opens highs lows closes swingHighs swingLows
    (pyGet closes (-1)) 0 lookback_candles

/-- `tools/analysis.py::detect_liquidity_sweep` — single-candle variant:
tests only the latest candle against the last three swing highs/lows,
returning the sweep kind and swept level. -/
def analysis_detect_sweep (highs lows closes : List ℚ)
    (swingHighs swingLows : List SwingPt) : Option (SweepKind × ℚ) :=
  if swingHighs.isEmpty ∨ swingLows.isEmpty ∨ closes.length < 3 then none
  else
    match (takeLast 3 swingHighs).reverse.find?
        (fun sh => decide (sh.price < pyGet highs (-1)) &&
                   decide (pyGet closes (-1) < sh.price)) with
    | some sh => some (.bearish, sh.price)
    | none =>
        match (takeLast 3 swingLows).reverse.find?
            (fun sl => decide (pyGet lows (-1) < sl.price) &&
                       decide (sl.price < pyGet closes (-1))) with
        | some sl => some (.bullish, sl.price)
        | none => none

/-! ## Multi-timeframe composition (`tools/liquidity.py`) -/

/-- Market bias from `detect_market_bias`. -/
inductive Bias
  | bullish
  | bearish
  | neutral
deriving DecidableEq, Repr

/-- A liquidity pool entry as stored in the `bsl`/`ssl` lists of a
`find_liquidity_pools` result. -/
structure Pool where
  price : ℚ
  distance_pct : ℚ
deriving DecidableEq, Repr

/-- The fields of a successful `find_liquidity_pools` result consumed by
`get_opposing_liquidity` and `mtf_liquidity_scan`. -/
structure PoolsOk where
  price : ℚ
  bias : Bias
  bsl : List Pool
  ssl : List Pool
deriving DecidableEq, Repr

/-- Result of `get_opposing_liquidity`: either an error dict (no targets,
or the caught `ZeroDivisionError` on a zero entry price) or the TP target
(`tp_distance_pct` is returned rounded to 2 decimals). -/
inductive OppResult
  | err (msg : String)
  | ok (tp_price tp_distance_pct : ℚ)
deriving DecidableEq, Repr

/-- `tools/liquidity.py::get_opposing_liquidity` on an already-fetched
higher-timeframe pools result (the source re-fetches the 1H pools itself;
the direction string is modelled by the `Direction` enum, the invalid-
direction branch is unreachable from the composer). -/
def get_opposing_liquidity (pools : PoolsOk) (direction : Direction)
    (entry_price : ℚ) : OppResult :=
  match direction with
  | .LONG =>
      match pools.bsl.filter (fun p => entry_price < p.price) with
      | [] => .err "No BSL targets found above entry"
      | t :: _ =>
          if entry_price = 0 then
            .err "Opposing liquidity error: float division by zero"
          else
            .ok t.price (pyRound ((t.price - entry_price) / entry_price * 100) 2)
  | .SHORT =>
      match pools.ssl.filter (fun p => p.price < entry_price) with
      | [] => .err "No SSL targets found below entry"
      | t :: _ =>
          if entry_price = 0 then
            .err "Opposing liquidity error: float division by zero"
          else
            .ok t.price (pyRound ((entry_price - t.price) / entry_price * 100) 2)

/-- The `results["mtf"]` view built by `mtf_liquidity_scan` from the 15m
sweep result (each field read with `.get`, so absent keys are `None` /
`False`). -/
structure MtfSweepView where
  sweep_detected : Bool
  sweep_type : Option SweepKind
  sweep_level : Option ℚ
  sweep_wick : Option ℚ
  confirmation : Bool
deriving DecidableEq, Repr

/-- The trade setup dict built by `mtf_liquidity_scan` (fields carry the
`round(..., 2)` applied on output; `entry` is not rounded). -/
structure TradeSetup where
  direction : Direction
  entry : ℚ
  sl : ℚ
  sl_pct : ℚ
  tp : ℚ
  tp_pct : ℚ
  rr_ratio : ℚ
  sweep_level : Option ℚ
deriving DecidableEq, Repr

/-- Signal outcome of `mtf_liquidity_scan`: an entry with its setup, a
no-trade with its reason list, or a caught runtime exception. -/
inductive ScanResult
  | exn (msg : String)
  | entry (setup : TradeSetup)
  | no_trade (reasons : List String)
deriving DecidableEq, Repr

/-- Python falsy-`or`: `a or b` where `a` is an optional float. -/
def pyOrQ (a : Option ℚ) (b : ℚ) : ℚ :=
  match a with
  | some p => if p = 0 then b else p
  | none => b

/-- The valid-setup branch of `mtf_liquidity_scan`: opposing-liquidity TP
(with the 2% fallback defaults of the `.get` calls), wick-buffered SL,
R:R, rounded setup dict.  A missing sweep wick would make the Python
`sweep_wick * 0.998` raise `TypeError`; a zero current price makes the
SL-distance division raise `ZeroDivisionError` — both caught as an error
dict (`exn`). -/
def mtfSetup (htf : PoolsOk) (mtf : MtfSweepView) (direction : Direction)
    (current_price : ℚ) : ScanResult :=
  let opposing := get_opposing_liquidity htf direction current_price
  match mtf.sweep_wick with
  | none => .exn "MTF scan error"
  | some wick =>
      let sl_price :=
        if direction = .LONG then wick * (998/1000) else wick * (1002/1000)
      if current_price = 0 then .exn "MTF scan error"
      else
        let sl_distance_pct :=
          if direction = .LONG then
            (current_price - sl_price) / current_price * 100
          else (sl_price - current_price) / current_price * 100
        let tp_price :=
          match opposing with
          | .ok tp _ => tp
          | .err _ =>
              current_price * (if direction = .LONG then 102/100 else 98/100)
        let tp_distance_pct :=
          match opposing with
          | .ok _ pct => pct
          | .err _ => 2
        let rr_ratio :=
          if 0 < sl_distance_pct then tp_distance_pct / sl_distance_pct else 0
        .entry {
          direction := direction
          entry := current_price
          sl := pyRound sl_price 2
          sl_pct := pyRound sl_distance_pct 2
          tp := pyRound tp_price 2
          tp_pct := pyRound tp_distance_pct 2
          rr_ratio := pyRound rr_ratio 2
          sweep_level := mtf.sweep_level
        }

/-- The signal-generation half of `tools/liquidity.py::mtf_liquidity_scan`
(lines 488–569), on the already-fetched sub-results: the higher-timeframe
pools (also passed to `get_opposing_liquidity`, which re-fetches the same
1H pools in the source), the 15m sweep view, and the optional 5m current
price. -/
def mtf_compose (htf : PoolsOk) (mtf : MtfSweepView)
    (ltf_current_price : Option ℚ) : ScanResult :=
  let current_price := pyOrQ ltf_current_price htf.price
  if (htf.bias = .bullish ∨ htf.bias = .neutral) ∧
      mtf.sweep_type = some .bullish ∧ mtf.confirmation = true then
    mtfSetup htf mtf .LONG current_price
  else if (htf.bias = .bearish ∨ htf.bias = .neutral) ∧
      mtf.sweep_type = some .bearish ∧ mtf.confirmation = true then
    mtfSetup htf mtf .SHORT current_price
  else
    .no_trade
      (if mtf.sweep_detected = false then ["No sweep on 15m"]
       else if mtf.confirmation = false then ["Sweep not confirmed"]
       else if htf.bias = .bullish ∧ mtf.sweep_type = some .bearish then
         ["Sweep against HTF bias"]
       else if htf.bias = .bearish ∧ mtf.sweep_type = some .bullish then
         ["Sweep against HTF bias"]
       else [])

/-! ## Size-based partial-close inference (`agent3.py`) -/

/-- `agent3.py::LiquidityAgent.detect_partial_close_from_size`, decision
for one symbol: `True` iff the symbol gets marked `partial_closed` on this
cycle (`last_position_sizes` is the persisted size map, `partialClosed`
the set of already-marked symbols, `current` the currently reported
size). -/
def detect_partial_close_mark (lastSizes : List (String × ℚ))
    (partialClosed : List String) (symbol : String) (current : ℚ) : Bool :=
  match lastSizes.lookup symbol with
  | none => false
  | some last =>
      if partialClosed.contains symbol then false
      else if 0 < last ∧ 0 < current then
        decide (4/10 ≤ current / last ∧ current / last ≤ 6/10)
      else false

/-! ## Helper lemmas -/

theorem direction_long_ne_short : (Direction.LONG = Direction.SHORT) = False :=
  eq_false (fun h => Direction.noConfusion h)

theorem direction_short_ne_long : (Direction.SHORT = Direction.LONG) = False :=
  eq_false (fun h => Direction.noConfusion h)

/-- The doubled per-symbol minimum quantity is exact at 6 decimals. -/
theorem min_qty_mul_int (sym : String) :
    ∃ k : ℤ, min_qty sym * 2 * 10 ^ 6 = (k : ℚ) := by
  unfold min_qty
  split_ifs
  exacts [⟨2000, by norm_num⟩, ⟨20000, by norm_num⟩, ⟨200000, by norm_num⟩,
    ⟨20000000, by norm_num⟩, ⟨20000000, by norm_num⟩, ⟨20000, by norm_num⟩]

/-- When the dynamic sizer's leverage clamp does not hit the 50 cap, the
clamped leverage dominates the margin-ratio argument. -/
theorem le_clampLeverage (x : ℚ) (hcap : pyTrunc x + 5 ≤ 50) :
    x ≤ ((max 10 (min 50 (pyTrunc x + 5)) : ℤ) : ℚ) := by
  have h1 : x - 1 < (pyTrunc x : ℚ) := pyTrunc_gt_sub_one x
  have h2 : min 50 (pyTrunc x + 5) = pyTrunc x + 5 := min_eq_right hcap
  have h3 : (pyTrunc x + 5 : ℤ) ≤ max 10 (min 50 (pyTrunc x + 5)) := by
    rw [h2]
    exact le_max_right _ _
  have h4 : x ≤ ((pyTrunc x + 5 : ℤ) : ℚ) := by push_cast; linarith
  exact le_trans h4 (by exact_mod_cast h3)

/-- The SL-distance breakpoint base of `select_leverage`. -/
def selBase (sl_distance_pct : ℚ) : ℚ :=
  if sl_distance_pct ≤ 1/2 then 30
  else if sl_distance_pct ≤ 1 then 25
  else if sl_distance_pct ≤ 3/2 then 20
  else if sl_distance_pct ≤ 2 then 15
  else 10

/-- The volatility factor of `select_leverage`. -/
def selMult (volatility : String) : ℚ :=
  if pyLower volatility = "low" then 12/10
  else if pyLower volatility = "normal" then 1
  else if pyLower volatility = "high" then 7/10
  else 1

/-! ## Claim theorems: position sizing -/

/-- C3: every successful fixed-risk sizing call satisfies
`risk_amount = balance × risk_percent/100`,
`margin_required = risk_amount / (sl_distance_pct × leverage)` with
`sl_distance_pct = |entry − stop|/entry`,
`position size = margin × leverage`, `quantity = notional/entry`;
and the spec's example (balance 100, entry 95000, stop 94050, risk 5%,
leverage 20) yields sl_pct 1%, risk 5, margin 25, notional 500,
quantity 1/190 ≈ 0.00526. -/
theorem claim_C3_fixed_sizing :
    (∀ (b e s rp : ℚ) (lv : ℤ) (r : FixedOk),
        calculate_position b e s rp lv = .ok r →
        r.risk_amount = b * (rp / 100) ∧
        r.margin_required = r.risk_amount / ((|e - s| / e) * (lv : ℚ)) ∧
        r.position_size = r.margin_required * (lv : ℚ) ∧
        r.quantity = r.position_size / e) ∧
    calculate_position 100 95000 94050 5 20 =
      .ok ⟨.LONG, 95000, 94050, 1, 5, 5, 20, 25, 500, 1/190, 95950, 96900, 5, []⟩ ∧
    |1/190 - 526/100000| < (1/100000 : ℚ) := by
  refine ⟨?_, by norm_num [calculate_position], by norm_num [abs_lt]⟩
  intro b e s rp lv r h
  simp only [calculate_position] at h
  split_ifs at h <;>
    first
      | exact ToolResult.noConfusion h
      | (simp only [ToolResult.ok.injEq] at h
         subst h
         exact ⟨rfl, rfl, rfl, rfl⟩)

/-- C3 witness: the universal part instantiated at the spec's example. -/
theorem claim_C3_fixed_sizing_witness :
    (5 : ℚ) = 100 * (5 / 100) ∧
    (25 : ℚ) = 5 / ((|(95000 : ℚ) - 94050| / 95000) * ((20 : ℤ) : ℚ)) ∧
    (500 : ℚ) = 25 * ((20 : ℤ) : ℚ) ∧
    (1/190 : ℚ) = 500 / 95000 := by
  have h := claim_C3_fixed_sizing.1 100 95000 94050 5 20
    ⟨.LONG, 95000, 94050, 1, 5, 5, 20, 25, 500, 1/190, 95950, 96900, 5, []⟩
    (by norm_num [calculate_position])
  exact h

/-- C4 (amended): the fixed-risk sizer rejects non-positive balance,
non-positive entry/stop and `entry = stop` before any computation with an
error naming the violated precondition.  The dynamic sizer rejects
non-positive inputs up front, but `entry = stop` is NOT rejected up
front: the call falls through the direction branch as SHORT and ends in
either the TP-direction validation error or a caught division-by-zero
exception — in all cases no success result is returned. -/
theorem claim_C4_input_validation :
    (∀ (b e s rp : ℚ) (lv : ℤ), b ≤ 0 →
        calculate_position b e s rp lv = .invalid "Balance must be positive") ∧
    (∀ (b e s rp : ℚ) (lv : ℤ), 0 < b → (e ≤ 0 ∨ s ≤ 0) →
        calculate_position b e s rp lv =
          .invalid "Entry price and stop-loss must be positive") ∧
    (∀ (b e s rp : ℚ) (lv : ℤ), 0 < b → 0 < e → 0 < s → e = s →
        calculate_position b e s rp lv =
          .invalid "Entry price and stop-loss cannot be the same") ∧
    (∀ (b e s tp rp : ℚ) (sym : String), (b ≤ 0 ∨ e ≤ 0 ∨ s ≤ 0 ∨ tp ≤ 0) →
        calculate_position_dynamic b e s tp rp sym =
          .invalid "All values must be positive") ∧
    (∀ (b e s tp rp : ℚ) (sym : String), 0 < b → 0 < e → 0 < tp → e = s →
        (calculate_position_dynamic b e s tp rp sym =
            .invalid "SHORT: TP must be below entry" ∨
         calculate_position_dynamic b e s tp rp sym =
            .exn "Position calculation error: float division by zero") ∧
        (calculate_position_dynamic b e s tp rp sym).isOk = false) := by
  refine ⟨?_, ?_, ?_, ?_, ?_⟩
  · intro b e s rp lv hb
    simp only [calculate_position]
    rw [if_pos hb]
  · intro b e s rp lv hb hes
    simp only [calculate_position]
    rw [if_neg (not_le.mpr hb), if_pos hes]
  · intro b e s rp lv hb he hs hes
    simp only [calculate_position]
    rw [if_neg (not_le.mpr hb), if_neg (by push_neg; exact ⟨he, hs⟩), if_pos hes]
  · intro b e s tp rp sym hneg
    simp only [calculate_position_dynamic]
    rw [if_pos hneg]
  · intro b e s tp rp sym hb he htp hes
    subst hes
    have hnot : ¬(b ≤ 0 ∨ e ≤ 0 ∨ e ≤ 0 ∨ tp ≤ 0) := by
      push_neg
      exact ⟨hb, he, he, htp⟩
    have hdir : (if e < e then Direction.LONG else .SHORT) = .SHORT :=
      if_neg (lt_irrefl e)
    by_cases hle : e ≤ tp
    · have : calculate_position_dynamic b e e tp rp sym =
          .invalid "SHORT: TP must be below entry" := by
        simp only [calculate_position_dynamic]
        rw [if_neg hnot]
        rw [if_neg (by rw [hdir]; simp)]
        rw [if_pos (by rw [hdir]; exact ⟨rfl, hle⟩)]
      rw [this]
      exact ⟨Or.inl rfl, rfl⟩
    · have : calculate_position_dynamic b e e tp rp sym =
          .exn "Position calculation error: float division by zero" := by
        simp only [calculate_position_dynamic]
        rw [if_neg hnot]
        rw [if_neg (by rw [hdir]; simp)]
        rw [if_neg (by rw [hdir]; simp [hle])]
        rw [if_pos (by rw [if_neg (lt_irrefl e)]; simp)]
      rw [this]
      exact ⟨Or.inr rfl, rfl⟩

/-- C4 witness: the amended behaviour at concrete inputs (fixed-variant
rejection of a non-positive balance; dynamic variant with
`entry = stop = 95000`, `tp = 94000` ending in the caught
division-by-zero error, not a success). -/
theorem claim_C4_input_validation_witness :
    calculate_position (-1) 95000 94050 5 20 =
      .invalid "Balance must be positive" ∧
    ((calculate_position_dynamic 100 95000 95000 94000 10 "BTCUSDT" =
        .invalid "SHORT: TP must be below entry" ∨
      calculate_position_dynamic 100 95000 95000 94000 10 "BTCUSDT" =
        .exn "Position calculation error: float division by zero") ∧
     (calculate_position_dynamic 100 95000 95000 94000 10 "BTCUSDT").isOk = false) := by
  refine ⟨claim_C4_input_validation.1 (-1) 95000 94050 5 20 (by norm_num), ?_⟩
  exact claim_C4_input_validation.2.2.2.2 100 95000 95000 94000 10 "BTCUSDT"
    (by norm_num) (by norm_num) (by norm_num) rfl

/-- C4 counterexample: the claim as stated is false for the dynamic
variant — at balance 100, entry 95000, stop 95000 (equal to entry),
tp 94000, the call is not rejected before computation with an error
naming the precondition; it reaches the sizing computation and surfaces
a caught `ZeroDivisionError`. -/
theorem claim_C4_counterexample :
    calculate_position_dynamic 100 95000 95000 94000 10 "BTCUSDT" =
      .exn "Position calculation error: float division by zero" ∧
    (calculate_position_dynamic 100 95000 95000 94000 10 "BTCUSDT").isInvalid
      = false := by
  have h : calculate_position_dynamic 100 95000 95000 94000 10 "BTCUSDT" =
      .exn "Position calculation error: float division by zero" := by
    norm_num [calculate_position_dynamic]
    intro hc
    exact Direction.noConfusion hc
  exact ⟨h, by rw [h]; rfl⟩

/-- C5 (amended): for every successful dynamic sizing call, the
recommended leverage is `clamp(int(notional/(balance*0.5)) + 5, 10, 50)` —
with Python `int()` truncation, not `ceil` — and the margin
`notional/leverage` is at or below 50% of balance whenever the clamp does
not hit the 50 cap (when it does, the margin can exceed 50%); the
reported margin is that quotient rounded to 2 decimals. -/
theorem claim_C5_dynamic_leverage :
    ∀ (b e s tp rp : ℚ) (sym : String) (r : DynOk) (N x : ℚ),
      calculate_position_dynamic b e s tp rp sym = .ok r →
      b * (rp / 100) / ((if s < e then e - s else s - e) / e * 100 / 100) = N →
      N / (b * (5/10)) = x →
      r.leverage = max 10 (min 50 (pyTrunc x + 5)) ∧
      r.margin_required = pyRound (N / ((r.leverage : ℤ) : ℚ)) 2 ∧
      (pyTrunc x + 5 ≤ 50 → N / ((r.leverage : ℤ) : ℚ) ≤ b * (5/10)) := by
  intro b e s tp rp sym r N x h hN hx
  by_cases hval : b ≤ 0 ∨ e ≤ 0 ∨ s ≤ 0 ∨ tp ≤ 0
  · simp only [calculate_position_dynamic, if_pos hval] at h
    exact ToolResult.noConfusion h
  · push_neg at hval
    obtain ⟨hb, he, hs, htp⟩ := hval
    have hbm : 0 < b * (5/10) := by linarith
    simp only [calculate_position_dynamic] at h
    rw [if_neg (by push_neg; exact ⟨hb, he, hs, htp⟩)] at h
    rw [if_pos hbm] at h
    split_ifs at h hN <;>
      first
        | exact ToolResult.noConfusion h
        | (simp only [ToolResult.ok.injEq] at h
           subst h
           refine ⟨by rw [hN, hx], by rw [hN, hx], ?_⟩
           intro hcap
           rw [hN, hx]
           have hL10 : (10:ℤ) ≤ max 10 (min 50 (pyTrunc x + 5)) := le_max_left _ _
           have hLpos : (0:ℚ) < ((max 10 (min 50 (pyTrunc x + 5)) : ℤ) : ℚ) := by
             exact_mod_cast lt_of_lt_of_le (by norm_num) hL10
           have hxle : x ≤ ((max 10 (min 50 (pyTrunc x + 5)) : ℤ) : ℚ) :=
             le_clampLeverage x hcap
           have hNeq : N = x * (b * (5/10)) := by
             rw [← hx]
             field_simp
           rw [div_le_iff₀ hLpos, hNeq]
           calc x * (b * (5/10))
               ≤ ((max 10 (min 50 (pyTrunc x + 5)) : ℤ) : ℚ) * (b * (5/10)) :=
                 mul_le_mul_of_nonneg_right hxle (by linarith)
             _ = b * (5/10) * ((max 10 (min 50 (pyTrunc x + 5)) : ℤ) : ℚ) := by
                 ring)

/-- C5 witness: the amended leverage formula instantiated at balance 100,
entry 525, stop 515, tp 600, risk 10% (notional 525, ratio 10.5,
truncation gives 10 + 5 = 15). -/
theorem claim_C5_dynamic_leverage_witness :
    (⟨.LONG, 525, 515, 600, 19/10, 1429/100, 15/2, 10, 10, 525, 1, 15, 35,
        75, 10⟩ : DynOk).leverage
      = max 10 (min 50 (pyTrunc (21/2) + 5)) :=
  (claim_C5_dynamic_leverage 100 525 515 600 10 "BTCUSDT" _ 525 (21/2)
    (by norm_num [calculate_position_dynamic, min_qty, pyRound, roundHalfEven,
          pyTrunc, direction_long_ne_short, direction_short_ne_long,
          show pyUpper "BTCUSDT" = "BTCUSDT" from by decide])
    (by norm_num) (by norm_num)).1

/-- C5 counterexample: the claim as stated is false — at balance 100,
entry 525, stop 515 (notional 525, `525/(100*0.5) = 10.5`) the code
returns leverage 15 (`int(10.5)+5`) while the spec's
`clamp(ceil(10.5)+5, 10, 50)` gives 16; and at balance 100, entry 1000,
stop 999 (notional 10000) the leverage caps at 50 and the margin is 200,
which exceeds 50% of balance. -/
theorem claim_C5_counterexample :
    dynLeverage (calculate_position_dynamic 100 525 515 600 10 "BTCUSDT") =
      some 15 ∧
    dyn_leverage_specFormula 100 525 = 16 ∧
    (15 : ℤ) ≠ 16 ∧
    dynMargin (calculate_position_dynamic 100 1000 999 1010 10 "BTCUSDT") =
      some 200 ∧
    ¬((200 : ℚ) ≤ 100 * (5/10)) := by
  have hup : pyUpper "BTCUSDT" = "BTCUSDT" := by decide
  have h1 : calculate_position_dynamic 100 525 515 600 10 "BTCUSDT" =
      .ok ⟨.LONG, 525, 515, 600, 19/10, 1429/100, 15/2, 10, 10, 525, 1, 15,
        35, 75, 10⟩ := by
    norm_num [calculate_position_dynamic, min_qty, pyRound, roundHalfEven,
      pyTrunc, hup, direction_long_ne_short, direction_short_ne_long]
  have h2 : calculate_position_dynamic 100 1000 999 1010 10 "BTCUSDT" =
      .ok ⟨.LONG, 1000, 999, 1010, 1/10, 1, 10, 10, 10, 10000, 10, 50, 200,
        100, 10⟩ := by
    norm_num [calculate_position_dynamic, min_qty, pyRound, roundHalfEven,
      pyTrunc, hup, direction_long_ne_short, direction_short_ne_long]
  have hceil : (⌈(525 : ℚ) / (100 * (5/10))⌉ : ℤ) = 11 := by
    rw [Int.ceil_eq_iff]
    constructor <;> norm_num
  refine ⟨by rw [h1]; rfl, ?_, by norm_num, by rw [h2]; rfl, by norm_num⟩
  rw [dyn_leverage_specFormula, hceil]
  omega

/-- C6: every successful dynamic sizing call returns a quantity of at
least 2× the instrument's minimum tradable size; when the risk-derived
quantity falls below that floor, the returned quantity is exactly the
floor and the reported risk amount and risk percent are recomputed from
the enlarged position. -/
theorem claim_C6_min_qty_floor :
    ∀ (b e s tp rp : ℚ) (sym : String) (r : DynOk) (q : ℚ),
      calculate_position_dynamic b e s tp rp sym = .ok r →
      b * (rp / 100) / ((if s < e then e - s else s - e) / e * 100 / 100) / e
        = q →
      min_qty sym * 2 ≤ r.quantity ∧
      (q < min_qty sym * 2 →
        r.quantity = min_qty sym * 2 ∧
        r.risk_amount =
          pyRound (min_qty sym * 2 * e *
            ((if s < e then e - s else s - e) / e * 100 / 100)) 2 ∧
        r.risk_percent =
          pyRound (min_qty sym * 2 * e *
            ((if s < e then e - s else s - e) / e * 100 / 100) / b * 100) 2) := by
  intro b e s tp rp sym r q h hq
  obtain ⟨k, hk⟩ := min_qty_mul_int sym
  by_cases hval : b ≤ 0 ∨ e ≤ 0 ∨ s ≤ 0 ∨ tp ≤ 0
  · simp only [calculate_position_dynamic, if_pos hval] at h
    exact ToolResult.noConfusion h
  · push_neg at hval
    obtain ⟨hb, he, hs, htp⟩ := hval
    have hbm : 0 < b * (5/10) := by linarith
    simp only [calculate_position_dynamic] at h
    rw [if_neg (by push_neg; exact ⟨hb, he, hs, htp⟩)] at h
    rw [if_pos hbm] at h
    split_ifs at h hq ⊢ <;>
      first
        | exact ToolResult.noConfusion h
        | (simp only [ToolResult.ok.injEq] at h
           subst h
           first
             | exact ⟨le_of_eq (pyRound_eq_self hk).symm,
                 fun _ => ⟨pyRound_eq_self hk, rfl, rfl⟩⟩
             | exact ⟨pyRound_ge_of_le hk (by linarith),
                 fun hlt => absurd hq (by push_neg; intro hq'; linarith)⟩)

/-- C6 witness: at balance 1, entry 95000, stop 94050, tp 96900, risk 1%
on BTCUSDT the raw quantity `1/95000` is below the floor `0.002`; the
returned quantity is exactly the floor and the reported risk is
recomputed from the enlarged position. -/
theorem claim_C6_min_qty_floor_witness :
    min_qty "BTCUSDT" * 2 ≤
      (⟨.LONG, 95000, 94050, 96900, 1, 2, 2, 19/10, 190, 190, 1/500, 10,
          1/10, 19/5, 19/10⟩ : DynOk).quantity :=
  (claim_C6_min_qty_floor 1 95000 94050 96900 1 "BTCUSDT" _ (1/95000)
    (by norm_num [calculate_position_dynamic, min_qty, pyRound, roundHalfEven,
          pyTrunc, direction_long_ne_short, direction_short_ne_long,
          show pyUpper "BTCUSDT" = "BTCUSDT" from by decide])
    (by norm_num)).1

/-- C8 (amended): the leverage selector returns the breakpoint base times
the volatility factor, truncated to an integer by Python `int()`, then
clamped to `[10, 30]`; the result always lies in `[10, 30]`, and the
boundary cases 0.5, 1.0, 1.5, 2.0, 2.01 under normal volatility yield
30, 25, 20, 15, 10. -/
theorem claim_C8_leverage_selector :
    (∀ (s : ℚ) (v : String),
        select_leverage s v = max 10 (min 30 (pyTrunc (selBase s * selMult v))) ∧
        10 ≤ select_leverage s v ∧ select_leverage s v ≤ 30) ∧
    select_leverage (1/2) "normal" = 30 ∧
    select_leverage 1 "normal" = 25 ∧
    select_leverage (3/2) "normal" = 20 ∧
    select_leverage 2 "normal" = 15 ∧
    select_leverage (201/100) "normal" = 10 := by
  have h1 : (pyLower "normal" = "low") = False := eq_false (by decide)
  have h2 : (pyLower "normal" = "normal") = True := eq_true (by decide)
  refine ⟨fun s v => ⟨rfl, le_max_left _ _, max_le (by norm_num) (min_le_left _ _)⟩,
    ?_, ?_, ?_, ?_, ?_⟩ <;>
    norm_num [select_leverage, pyTrunc, h1, h2]

/-- C8 counterexample: the claim as stated is false — for sl distance
1.0% under high volatility the code returns `int(25 * 0.7) = 17`, while
the spec's formula (base times factor, clamped, no truncation) gives
17.5. -/
theorem claim_C8_counterexample :
    select_leverage 1 "high" = 17 ∧
    select_leverage_specFormula 1 "high" = 35/2 ∧
    ((17 : ℤ) : ℚ) ≠ 35/2 := by
  have h1 : (pyLower "high" = "low") = False := eq_false (by decide)
  have h2 : (pyLower "high" = "normal") = False := eq_false (by decide)
  have h3 : (pyLower "high" = "high") = True := eq_true (by decide)
  refine ⟨?_, ?_, by norm_num⟩ <;>
    norm_num [select_leverage, select_leverage_specFormula, pyTrunc, h1, h2, h3]

/-- C9: for every symbol with a positive persisted last size, a positive
current size, and not already marked partial-closed, the size-based
inference marks `partial_closed` exactly when the ratio `current/last`
lies in `[0.4, 0.6]`; a ratio of 0.55 (0.02 → 0.011) triggers the mark,
0.8 and 0.3 do not. -/
theorem claim_C9_partial_close_inference :
    (∀ (lastSizes : List (String × ℚ)) (partialClosed : List String)
        (symbol : String) (current last : ℚ),
        lastSizes.lookup symbol = some last →
        partialClosed.contains symbol = false →
        0 < last → 0 < current →
        (detect_partial_close_mark lastSizes partialClosed symbol current
            = true ↔
          4/10 ≤ current / last ∧ current / last ≤ 6/10)) ∧
    detect_partial_close_mark [("BTCUSDT", 2/100)] [] "BTCUSDT" (11/1000)
      = true ∧
    detect_partial_close_mark [("BTCUSDT", 2/100)] [] "BTCUSDT" (16/1000)
      = false ∧
    detect_partial_close_mark [("BTCUSDT", 2/100)] [] "BTCUSDT" (6/1000)
      = false := by
  have hbeq : ("BTCUSDT" == "BTCUSDT") = true := by decide
  refine ⟨?_, ?_, ?_, ?_⟩
  · intro ls pc sym cur last h1 h2 h3 h4
    have h2' : sym ∉ pc := by simpa using h2
    simp [detect_partial_close_mark, h1, h2', h3, h4]
  all_goals
    norm_num [detect_partial_close_mark, List.lookup, List.contains, hbeq]

/-- C9 witness: the universal part instantiated — last size 1, current
size 1/2 (ratio 0.5), no prior mark, gets marked. -/
theorem claim_C9_partial_close_inference_witness :
    detect_partial_close_mark [("ETHUSDT", 1)] [] "ETHUSDT" (1/2) = true := by
  refine (claim_C9_partial_close_inference.1 [("ETHUSDT", 1)] [] "ETHUSDT"
    (1/2) 1 ?_ ?_ (by norm_num) (by norm_num)).mpr (by norm_num)
  · simp [List.lookup, show ("ETHUSDT" == "ETHUSDT") = true from by decide]
  · rfl

/-! ## Claim theorems: entry-signal scoring -/

theorem trend_up_ne_down : (Trend.uptrend = Trend.downtrend) = False :=
  eq_false (fun h => Trend.noConfusion h)

theorem trend_down_ne_up : (Trend.downtrend = Trend.uptrend) = False :=
  eq_false (fun h => Trend.noConfusion h)

theorem option_none_ne_some (a : α) : ((none : Option α) = some a) = False :=
  eq_false (fun h => Option.noConfusion h)

/-- `finishSignal` produces an ENTRY only with the volume-incremented
score at or above 5, and that score is exactly the reported one. -/
theorem finishSignal_entry_spec (d : AnalysisData) (sc : ℕ)
    (zo : Option EntryZone) (dir : Direction) (e s slp : ℚ) (n : ℕ)
    (h : finishSignal d sc zo = .entry dir e s slp n) :
    n = sc + (if 12/10 < d.volume_ratio then 1 else 0) ∧ 5 ≤ n := by
  simp only [finishSignal] at h
  by_cases h5 : 5 ≤ sc + (if 12/10 < d.volume_ratio then 1 else 0)
  · rw [if_pos h5] at h
    cases zo with
    | some z =>
        dsimp only at h
        obtain ⟨-, -, -, -, hn⟩ := SignalResult.entry.inj h
        exact ⟨hn.symm, hn ▸ h5⟩
    | none =>
        cases hatr : d.atr with
        | none => rw [hatr] at h; dsimp only at h; exact SignalResult.noConfusion h
        | some a =>
            rw [hatr] at h
            dsimp only at h
            by_cases hcp : d.current_price = 0
            · rw [if_pos hcp] at h
              exact SignalResult.noConfusion h
            · rw [if_neg hcp] at h
              obtain ⟨-, -, -, -, hn⟩ := SignalResult.entry.inj h
              exact ⟨hn.symm, hn ▸ h5⟩
  · rw [if_neg h5] at h
    exact SignalResult.noConfusion h

/-- `finishSignal` with a below-threshold score is a NO_TRADE. -/
theorem finishSignal_low_score (d : AnalysisData) (sc : ℕ)
    (zo : Option EntryZone)
    (hlt : sc + (if 12/10 < d.volume_ratio then 1 else 0) < 5) :
    finishSignal d sc zo =
      .no_trade "Score too low"
        (some (sc + (if 12/10 < d.volume_ratio then 1 else 0))) := by
  unfold finishSignal
  rw [if_neg (not_le.mpr hlt)]

/-- C1 (amended): an ENTRY signal is returned only when the trend is
uptrend or downtrend and the accumulated score is at least 5; a ranging
or undefined trend always yields NO_TRADE regardless of all other
evidence; and a below-5 score yields NO_TRADE provided the analysis
record is well-formed (a claimed zone comes with a nonempty zone list and
nonzero zone entry, and a numeric `atr_pct` backs the no-zone fallback) —
otherwise the fallback stop computation raises and the call returns a
caught error instead of NO_TRADE. -/
theorem claim_C1_entry_signal_gate :
    (∀ (d : AnalysisData) (dir : Direction) (e s slp : ℚ) (sc : ℕ),
        check_entry_signal d = .entry dir e s slp sc →
        (d.trend = .uptrend ∨ d.trend = .downtrend) ∧ 5 ≤ sc ∧
          sc = entry_score d) ∧
    (∀ d : AnalysisData, d.trend = .ranging ∨ d.trend = .undefined →
        check_entry_signal d =
          .no_trade "No clear trend - market is ranging" none) ∧
    (∀ d : AnalysisData, d.wellFormed → entry_score d < 5 →
        (check_entry_signal d).isNoTrade = true) := by
  refine ⟨?_, ?_, ?_⟩
  · intro d dir e s slp sc h
    by_cases htr : d.trend = .uptrend ∨ d.trend = .downtrend
    · refine ⟨htr, ?_⟩
      rw [check_entry_signal, if_neg (not_not_intro htr)] at h
      dsimp only at h
      cases hz : d.entry_zones.has_zone with
      | true =>
          rw [hz] at h
          simp only [if_true] at h
          cases hzs : d.entry_zones.zones with
          | nil =>
              rw [hzs] at h
              exact SignalResult.noConfusion h
          | cons z zs =>
              rw [hzs] at h
              dsimp only at h
              by_cases hz0 : z.entry = 0
              · rw [if_pos hz0] at h
                exact SignalResult.noConfusion h
              · rw [if_neg hz0] at h
                obtain ⟨hn, h5⟩ := finishSignal_entry_spec d _ _ _ _ _ _ _ h
                refine ⟨h5, ?_⟩
                rw [hn, entry_score, hz]
                norm_num
      | false =>
          rw [hz] at h
          simp only [Bool.false_eq_true, if_false] at h
          cases hap : d.atr_pct with
          | none =>
              rw [hap] at h
              dsimp only at h
              exact SignalResult.noConfusion h
          | some p =>
              rw [hap] at h
              dsimp only at h
              obtain ⟨hn, h5⟩ := finishSignal_entry_spec d _ _ _ _ _ _ _ h
              refine ⟨h5, ?_⟩
              rw [hn, entry_score, hz]
              norm_num
    · rw [check_entry_signal, if_pos htr] at h
      exact SignalResult.noConfusion h
  · intro d htr
    rw [check_entry_signal, if_pos ?_]
    rcases htr with h | h <;>
      · rintro (hc | hc) <;> rw [h] at hc <;> exact Trend.noConfusion hc
  · intro d hwf hlt
    by_cases htr : d.trend = .uptrend ∨ d.trend = .downtrend
    · rw [check_entry_signal, if_neg (not_not_intro htr)]
      dsimp only
      cases hz : d.entry_zones.has_zone with
      | true =>
          obtain ⟨z, zs, hzs, hz0⟩ := hwf.1 hz
          simp only [if_true]
          rw [hzs]
          dsimp only
          rw [if_neg hz0]
          rw [finishSignal_low_score]
          · rfl
          · simp only [entry_score, hz, if_true] at hlt
            omega
      | false =>
          simp only [Bool.false_eq_true, if_false]
          cases hap : d.atr_pct with
          | none => exact absurd hap (hwf.2 hz)
          | some p =>
              dsimp only
              rw [finishSignal_low_score]
              · rfl
              · simp only [entry_score, hz, Bool.false_eq_true, if_false] at hlt
                omega
    · rw [check_entry_signal, if_pos htr]
      rfl

/-- C1 witness: the gate instantiated at an analysis record that
produces an ENTRY — uptrend (+2), EMA bullish (+1), RSI 50 (+1),
aligned sweep (+3), zone (+2), volume 2× (+1): score 10. -/
theorem claim_C1_entry_signal_gate_witness :
    ((⟨.uptrend, some .bullish, some 50, some 10, some 1, 2, true,
        some .bullish, ⟨true, [⟨100, 99⟩]⟩, 100⟩ : AnalysisData).trend
          = Trend.uptrend ∨
     (⟨.uptrend, some .bullish, some 50, some 10, some 1, 2, true,
        some .bullish, ⟨true, [⟨100, 99⟩]⟩, 100⟩ : AnalysisData).trend
          = Trend.downtrend) ∧
    5 ≤ 10 ∧
    10 = entry_score ⟨.uptrend, some .bullish, some 50, some 10, some 1, 2,
      true, some .bullish, ⟨true, [⟨100, 99⟩]⟩, 100⟩ := by
  refine claim_C1_entry_signal_gate.1 _ .LONG 100 99 1 10 ?_
  norm_num [check_entry_signal, finishSignal, midScore, trend_up_ne_down]

/-- C1 counterexample: the claim as stated is false — a downtrend
analysis with no entry zone and a null `atr_pct` (reachable from a flat
candle series, where ATR is 0 and `analyze_market` reports
`atr_pct = None`) accumulates score 3 < 5, yet the result is the caught
`TypeError` error dict, not NO_TRADE. -/
theorem claim_C1_counterexample :
    check_entry_signal ⟨.downtrend, none, some 100, none, none, 1, false,
        none, ⟨false, []⟩, 100⟩ = .exn "Signal check error" ∧
    entry_score ⟨.downtrend, none, some 100, none, none, 1, false, none,
        ⟨false, []⟩, 100⟩ = 3 ∧
    (check_entry_signal ⟨.downtrend, none, some 100, none, none, 1, false,
        none, ⟨false, []⟩, 100⟩).isNoTrade = false := by
  have h : check_entry_signal ⟨.downtrend, none, some 100, none, none, 1,
      false, none, ⟨false, []⟩, 100⟩ = .exn "Signal check error" := by
    norm_num [check_entry_signal, trend_down_ne_up]
  refine ⟨h, ?_, by rw [h]; rfl⟩
  norm_num [entry_score, midScore, trend_down_ne_up, option_none_ne_some]

/-! ## Claim theorems: sweep detection -/

/-- Anatomy of a per-offset sweep check hit: the offset is recorded, a
bearish hit has the candle high strictly above and the close strictly
below the swept level (mirrored for bullish), and for `offset ≥ 1` the
confirmation flag is the body direction of the immediately following
candle. -/
theorem checkSweepAt_spec (o h l c : List ℚ) (sH sL : List SwingPt)
    (cur : ℚ) (k : ℕ) (f : SweepFound)
    (hf : checkSweepAt o h l c sH sL cur k = some f) :
    f.offset = k ∧
    (f.stype = .bearish →
      f.level < pyGet h (-((k : ℤ) + 1)) ∧
      pyGet c (-((k : ℤ) + 1)) < f.level ∧ f.wick = pyGet h (-((k : ℤ) + 1))) ∧
    (f.stype = .bullish →
      pyGet l (-((k : ℤ) + 1)) < f.level ∧
      f.level < pyGet c (-((k : ℤ) + 1)) ∧ f.wick = pyGet l (-((k : ℤ) + 1))) ∧
    (1 ≤ k →
      f.confirmation =
        (match f.stype with
         | .bearish => decide (pyGet c (-(k : ℤ)) < pyGet o (-(k : ℤ)))
         | .bullish => decide (pyGet o (-(k : ℤ)) < pyGet c (-(k : ℤ))))) := by
  have hidx : (-((k : ℤ) + 1) + 1) = -(k : ℤ) := by ring
  simp only [checkSweepAt] at hf
  split at hf
  next sh hfind =>
    have hp := List.find?_some hfind
    rw [Bool.and_eq_true, decide_eq_true_eq, decide_eq_true_eq] at hp
    obtain rfl : (⟨.bearish, sh.price, pyGet h (-((k:ℤ)+1)), k, _⟩ : SweepFound) = f :=
      Option.some.inj hf
    refine ⟨rfl, fun _ => ⟨hp.1, hp.2, rfl⟩, fun hcon => SweepKind.noConfusion hcon,
      fun hk => ?_⟩
    have hk0 : ¬k = 0 := by omega
    simp only [if_neg hk0, hidx]
    rw [if_pos (show -(k : ℤ) < 0 by omega)]
  next =>
    split at hf
    next sl hfind =>
      have hp := List.find?_some hfind
      rw [Bool.and_eq_true, decide_eq_true_eq, decide_eq_true_eq] at hp
      obtain rfl : (⟨.bullish, sl.price, pyGet l (-((k:ℤ)+1)), k, _⟩ : SweepFound) = f :=
        Option.some.inj hf
      refine ⟨rfl, fun hcon => SweepKind.noConfusion hcon,
        fun _ => ⟨hp.1, hp.2, rfl⟩, fun hk => ?_⟩
      have hk0 : ¬k = 0 := by omega
      simp only [if_neg hk0, hidx]
      rw [if_pos (show -(k : ℤ) < 0 by omega)]
    next => exact Option.noConfusion hf

/-- A hit of the multi-candle scan is a hit of the per-offset check at
its recorded offset. -/
theorem findSweepAux_spec (o h l c : List ℚ) (sH sL : List SwingPt)
    (cur : ℚ) :
    ∀ (fuel offset : ℕ) (f : SweepFound),
      findSweepAux o h l c sH sL cur offset fuel = some f →
      checkSweepAt o h l c sH sL cur f.offset = some f := by
  intro fuel
  induction fuel with
  | zero =>
      intro offset f hf
      simp [findSweepAux] at hf
  | succ n ih =>
      intro offset f hf
      simp only [findSweepAux] at hf
      by_cases hlen : c.length ≤ offset + 1
      · rw [if_pos hlen] at hf
        exact Option.noConfusion hf
      · rw [if_neg hlen] at hf
        cases hc : checkSweepAt o h l c sH sL cur offset with
        | some g =>
            rw [hc] at hf
            obtain rfl : g = f := Option.some.inj hf
            rw [(checkSweepAt_spec o h l c sH sL cur offset g hc).1]
            exact hc
        | none =>
            rw [hc] at hf
            exact ih (offset + 1) f hf

/-- C7: in both sweep detectors, a bearish sweep is flagged only when the
candle's high strictly exceeds the swing-high level and its close is
strictly below it (so a candle closing at or above the level is never
flagged), with the mirrored rule for bullish sweeps against swing lows. -/
theorem claim_C7_sweep_close_back_inside :
    (∀ (o h l c : List ℚ) (sH sL : List SwingPt) (lb : ℕ) (f : SweepFound),
        detect_liquidity_sweep_scan o h l c sH sL lb = some f →
        (f.stype = .bearish →
          f.level < pyGet h (-((f.offset : ℤ) + 1)) ∧
          pyGet c (-((f.offset : ℤ) + 1)) < f.level) ∧
        (f.stype = .bullish →
          pyGet l (-((f.offset : ℤ) + 1)) < f.level ∧
          f.level < pyGet c (-((f.offset : ℤ) + 1)))) ∧
    (∀ (h l c : List ℚ) (sH sL : List SwingPt) (K : SweepKind) (lvl : ℚ),
        analysis_detect_sweep h l c sH sL = some (K, lvl) →
        (K = .bearish → lvl < pyGet h (-1) ∧ pyGet c (-1) < lvl) ∧
        (K = .bullish → pyGet l (-1) < lvl ∧ lvl < pyGet c (-1))) := by
  constructor
  · intro o h l c sH sL lb f hf
    rw [detect_liquidity_sweep_scan] at hf
    have hc := findSweepAux_spec o h l c sH sL (pyGet c (-1)) lb 0 f hf
    obtain ⟨-, hb, hbl, -⟩ := checkSweepAt_spec o h l c sH sL _ f.offset f hc
    exact ⟨fun ht => ⟨(hb ht).1, (hb ht).2.1⟩, fun ht => ⟨(hbl ht).1, (hbl ht).2.1⟩⟩
  · intro h l c sH sL K lvl hf
    simp only [analysis_detect_sweep] at hf
    by_cases hguard : sH.isEmpty = true ∨ sL.isEmpty = true ∨ c.length < 3
    · rw [if_pos hguard] at hf
      exact Option.noConfusion hf
    · rw [if_neg hguard] at hf
      split at hf
      next sh hfind =>
        have hp := List.find?_some hfind
        rw [Bool.and_eq_true, decide_eq_true_eq, decide_eq_true_eq] at hp
        obtain ⟨hK, hlvl⟩ := Prod.mk.inj (Option.some.inj hf)
        subst hK
        subst hlvl
        exact ⟨fun _ => ⟨hp.1, hp.2⟩, fun hcon => SweepKind.noConfusion hcon⟩
      next =>
        split at hf
        next sl hfind =>
          have hp := List.find?_some hfind
          rw [Bool.and_eq_true, decide_eq_true_eq, decide_eq_true_eq] at hp
          obtain ⟨hK, hlvl⟩ := Prod.mk.inj (Option.some.inj hf)
          subst hK
          subst hlvl
          exact ⟨fun hcon => SweepKind.noConfusion hcon, fun _ => ⟨hp.1, hp.2⟩⟩
        next => exact Option.noConfusion hf

/-- C7 witness: the single-candle detector flags a bearish sweep on
highs `[0,0,7]`, closes `[5,5,4]` against swing high 6 — the latest high
7 is above the level and the latest close 4 back below it. -/
theorem claim_C7_sweep_close_back_inside_witness :
    (6 : ℚ) < pyGet [0, 0, 7] (-1) ∧ pyGet [5, 5, 4] (-1) < 6 :=
  (claim_C7_sweep_close_back_inside.2 [0, 0, 7] [1, 1, 1] [5, 5, 4]
    [⟨1, 6⟩] [⟨1, 1⟩] .bearish 6 (by decide)).1 rfl

/-- C10: whenever the multi-candle sweep scan finds a sweep on a candle
older than the most recent one, the confirmation flag is the body
direction of the immediately following candle (close versus open at
Python index `-offset`); the `closes[-1] < current_price` branch is never
taken, and that comparison — the latest close against itself, since
`current_price` is defined as `closes[-1]` — is identically false. -/
theorem claim_C10_older_sweep_confirmation :
    (∀ (o h l c : List ℚ) (sH sL : List SwingPt) (lb : ℕ) (f : SweepFound),
        detect_liquidity_sweep_scan o h l c sH sL lb = some f →
        1 ≤ f.offset →
        f.confirmation =
          (match f.stype with
           | .bearish =>
               decide (pyGet c (-(f.offset : ℤ)) < pyGet o (-(f.offset : ℤ)))
           | .bullish =>
               decide (pyGet o (-(f.offset : ℤ)) < pyGet c (-(f.offset : ℤ))))) ∧
    (∀ c : List ℚ, decide (pyGet c (-1) < pyGet c (-1)) = false) := by
  constructor
  · intro o h l c sH sL lb f hf hk
    rw [detect_liquidity_sweep_scan] at hf
    have hc := findSweepAux_spec o h l c sH sL (pyGet c (-1)) lb 0 f hf
    exact (checkSweepAt_spec o h l c sH sL _ f.offset f hc).2.2.2 hk
  · intro c
    exact decide_eq_false (lt_irrefl _)

/-- C10 witness: on opens `[10,10,9]`, highs `[10,11,5]`, lows `[1,1,1]`,
closes `[10,9,8]` with swing high 10, the scan finds a bearish sweep one
candle back (offset 1) and its confirmation equals the following
candle's body direction (`8 < 9`). -/
theorem claim_C10_older_sweep_confirmation_witness :
    (⟨.bearish, 10, 11, 1, true⟩ : SweepFound).confirmation =
      (match (⟨.bearish, 10, 11, 1, true⟩ : SweepFound).stype with
       | .bearish =>
           decide (pyGet [10, 9, 8] (-((1 : ℕ) : ℤ)) <
             pyGet [10, 10, 9] (-((1 : ℕ) : ℤ)))
       | .bullish =>
           decide (pyGet [10, 10, 9] (-((1 : ℕ) : ℤ)) <
             pyGet [10, 9, 8] (-((1 : ℕ) : ℤ)))) :=
  claim_C10_older_sweep_confirmation.1 [10, 10, 9] [10, 11, 5] [1, 1, 1]
    [10, 9, 8] [⟨0, 10⟩] [] 5 ⟨.bearish, 10, 11, 1, true⟩ (by decide)
    (by norm_num)

/-! ## Claim theorems: multi-timeframe composition -/

theorem direction_long_eq_long : (Direction.LONG = Direction.LONG) = True :=
  eq_true rfl

theorem direction_short_eq_short : (Direction.SHORT = Direction.SHORT) = True :=
  eq_true rfl

/-- The LONG valid-setup branch, spelled out: SL is the wick with a 0.2%
buffer below, TP is the head of the above-entry BSL pools with a 2%
fallback, and the R:R is the TP percentage over the SL percentage, all
rounded to 2 decimals on output. -/
theorem mtfSetup_long_spec (htf : PoolsOk) (mtf : MtfSweepView)
    (cur w slp tpU tpp : ℚ) (tpo : Option Pool)
    (hwick : mtf.sweep_wick = some w) (hc0 : ¬cur = 0)
    (htpo : (htf.bsl.filter (fun p => cur < p.price)).head? = tpo)
    (hslp : (cur - w * (998/1000)) / cur * 100 = slp)
    (htpU : (tpo.map Pool.price).getD (cur * (102/100)) = tpU)
    (htpp : (tpo.map (fun t => pyRound ((t.price - cur) / cur * 100) 2)).getD 2
      = tpp) :
    mtfSetup htf mtf .LONG cur =
      .entry ⟨.LONG, cur, pyRound (w * (998/1000)) 2, pyRound slp 2,
        pyRound tpU 2, pyRound tpp 2,
        pyRound (if 0 < slp then tpp / slp else 0) 2, mtf.sweep_level⟩ := by
  simp only [mtfSetup, get_opposing_liquidity]
  rw [hwick]
  dsimp only
  simp only [direction_long_eq_long, if_true, if_neg hc0]
  cases hfl : htf.bsl.filter (fun p => cur < p.price) with
  | nil =>
      rw [hfl] at htpo
      simp only [List.head?] at htpo
      subst htpo
      dsimp only [Option.map, Option.getD] at htpU htpp
      dsimp only
      rw [hslp, htpp, htpU]
  | cons t rest =>
      rw [hfl] at htpo
      simp only [List.head?] at htpo
      subst htpo
      dsimp only [Option.map, Option.getD] at htpU htpp
      dsimp only
      rw [hslp, htpp, htpU]

/-- The SHORT valid-setup branch, mirrored. -/
theorem mtfSetup_short_spec (htf : PoolsOk) (mtf : MtfSweepView)
    (cur w slp tpU tpp : ℚ) (tpo : Option Pool)
    (hwick : mtf.sweep_wick = some w) (hc0 : ¬cur = 0)
    (htpo : (htf.ssl.filter (fun p => p.price < cur)).head? = tpo)
    (hslp : (w * (1002/1000) - cur) / cur * 100 = slp)
    (htpU : (tpo.map Pool.price).getD (cur * (98/100)) = tpU)
    (htpp : (tpo.map (fun t => pyRound ((cur - t.price) / cur * 100) 2)).getD 2
      = tpp) :
    mtfSetup htf mtf .SHORT cur =
      .entry ⟨.SHORT, cur, pyRound (w * (1002/1000)) 2, pyRound slp 2,
        pyRound tpU 2, pyRound tpp 2,
        pyRound (if 0 < slp then tpp / slp else 0) 2, mtf.sweep_level⟩ := by
  simp only [mtfSetup, get_opposing_liquidity]
  rw [hwick]
  dsimp only
  simp only [direction_short_ne_long, if_false, if_neg hc0]
  cases hfl : htf.ssl.filter (fun p => p.price < cur) with
  | nil =>
      rw [hfl] at htpo
      simp only [List.head?] at htpo
      subst htpo
      dsimp only [Option.map, Option.getD] at htpU htpp
      dsimp only
      rw [hslp, htpp, htpU]
  | cons t rest =>
      rw [hfl] at htpo
      simp only [List.head?] at htpo
      subst htpo
      dsimp only [Option.map, Option.getD] at htpU htpp
      dsimp only
      rw [hslp, htpp, htpU]

/-- C2: for every valid multi-timeframe setup (matching or neutral
higher-timeframe bias, confirmed 15m sweep with wick `w`, nonzero current
price), the composed setup has stop-loss `wick × 0.998` (LONG) /
`wick × 1.002` (SHORT), take-profit the nearest opposing-side
higher-timeframe pool (BSL above for LONG, SSL below for SHORT) with a
fixed 2% fallback when none exists, and `rr_ratio = tp_pct / sl_pct` —
each output field carrying the code's 2-decimal rounding; in particular
the spec's scenario (1H bullish bias, confirmed 15m bullish sweep at
94800 with wick 94700, price 95200, nearest BSL 96200) composes to a
LONG with entry 95200, sl 94510.6, sl_pct 0.72 (raw ≈ 0.724), tp 96200,
tp_pct 1.05, rr_ratio 1.45. -/
theorem claim_C2_mtf_setup :
    (∀ (htf : PoolsOk) (mtf : MtfSweepView) (ltf : Option ℚ)
        (w cur slp tpU tpp : ℚ) (tpo : Option Pool),
        (htf.bias = .bullish ∨ htf.bias = .neutral) →
        mtf.sweep_type = some .bullish →
        mtf.confirmation = true →
        mtf.sweep_wick = some w →
        pyOrQ ltf htf.price = cur →
        ¬cur = 0 →
        (htf.bsl.filter (fun p => cur < p.price)).head? = tpo →
        (cur - w * (998/1000)) / cur * 100 = slp →
        (tpo.map Pool.price).getD (cur * (102/100)) = tpU →
        (tpo.map (fun t => pyRound ((t.price - cur) / cur * 100) 2)).getD 2
          = tpp →
        mtf_compose htf mtf ltf =
          .entry ⟨.LONG, cur, pyRound (w * (998/1000)) 2, pyRound slp 2,
            pyRound tpU 2, pyRound tpp 2,
            pyRound (if 0 < slp then tpp / slp else 0) 2, mtf.sweep_level⟩ ∧
        (htf.bsl.Pairwise (fun a b => a.price ≤ b.price) →
          ∀ p ∈ htf.bsl, cur < p.price → tpU ≤ p.price)) ∧
    (∀ (htf : PoolsOk) (mtf : MtfSweepView) (ltf : Option ℚ)
        (w cur slp tpU tpp : ℚ) (tpo : Option Pool),
        (htf.bias = .bearish ∨ htf.bias = .neutral) →
        mtf.sweep_type = some .bearish →
        mtf.confirmation = true →
        mtf.sweep_wick = some w →
        pyOrQ ltf htf.price = cur →
        ¬cur = 0 →
        (htf.ssl.filter (fun p => p.price < cur)).head? = tpo →
        (w * (1002/1000) - cur) / cur * 100 = slp →
        (tpo.map Pool.price).getD (cur * (98/100)) = tpU →
        (tpo.map (fun t => pyRound ((cur - t.price) / cur * 100) 2)).getD 2
          = tpp →
        mtf_compose htf mtf ltf =
          .entry ⟨.SHORT, cur, pyRound (w * (1002/1000)) 2, pyRound slp 2,
            pyRound tpU 2, pyRound tpp 2,
            pyRound (if 0 < slp then tpp / slp else 0) 2, mtf.sweep_level⟩ ∧
        (htf.ssl.Pairwise (fun a b => b.price ≤ a.price) →
          ∀ p ∈ htf.ssl, p.price < cur → p.price ≤ tpU)) ∧
    mtf_compose ⟨95000, .bullish, [⟨96200, 126/100⟩], []⟩
        ⟨true, some .bullish, some 94800, some 94700, true⟩ (some 95200) =
      .entry ⟨.LONG, 95200, 472553/5, 18/25, 96200, 21/20, 29/20,
        some 94800⟩ ∧
    |3447/4760 - 724/1000| < (1/1000 : ℚ) := by
  refine ⟨?_, ?_, ?_, by norm_num [abs_lt]⟩
  · intro htf mtf ltf w cur slp tpU tpp tpo hbias hst hconf hwick hcur hc0
      htpo hslp htpU htpp
    constructor
    · simp only [mtf_compose]
      rw [hcur]
      rw [if_pos ⟨hbias, hst, hconf⟩]
      exact mtfSetup_long_spec htf mtf cur w slp tpU tpp tpo hwick hc0 htpo
        hslp htpU htpp
    · intro hsort p hp hcp
      have hpf : p ∈ htf.bsl.filter (fun p => cur < p.price) :=
        List.mem_filter.mpr ⟨hp, by simpa using hcp⟩
      cases hfl : htf.bsl.filter (fun p => cur < p.price) with
      | nil =>
          rw [hfl] at hpf
          exact absurd hpf (List.not_mem_nil p)
      | cons t rest =>
          rw [hfl] at hpf htpo
          simp only [List.head?] at htpo
          subst htpo
          dsimp only [Option.map, Option.getD] at htpU
          rw [← htpU]
          have hsf : (htf.bsl.filter (fun p => cur < p.price)).Pairwise
              (fun a b => a.price ≤ b.price) :=
            List.Pairwise.filter _ hsort
          rw [hfl] at hsf
          rcases List.mem_cons.mp hpf with rfl | hmem
          · exact le_refl _
          · exact (List.pairwise_cons.mp hsf).1 p hmem
  · intro htf mtf ltf w cur slp tpU tpp tpo hbias hst hconf hwick hcur hc0
      htpo hslp htpU htpp
    constructor
    · simp only [mtf_compose]
      rw [hcur]
      rw [if_neg ?_, if_pos ⟨hbias, hst, hconf⟩]
      · exact mtfSetup_short_spec htf mtf cur w slp tpU tpp tpo hwick hc0 htpo
          hslp htpU htpp
      · rintro ⟨-, h2, -⟩
        rw [hst] at h2
        exact SweepKind.noConfusion (Option.some.inj h2)
    · intro hsort p hp hcp
      have hpf : p ∈ htf.ssl.filter (fun p => p.price < cur) :=
        List.mem_filter.mpr ⟨hp, by simpa using hcp⟩
      cases hfl : htf.ssl.filter (fun p => p.price < cur) with
      | nil =>
          rw [hfl] at hpf
          exact absurd hpf (List.not_mem_nil p)
      | cons t rest =>
          rw [hfl] at hpf htpo
          simp only [List.head?] at htpo
          subst htpo
          dsimp only [Option.map, Option.getD] at htpU
          rw [← htpU]
          have hsf : (htf.ssl.filter (fun p => p.price < cur)).Pairwise
              (fun a b => b.price ≤ a.price) :=
            List.Pairwise.filter _ hsort
          rw [hfl] at hsf
          rcases List.mem_cons.mp hpf with rfl | hmem
          · exact le_refl _
          · exact (List.pairwise_cons.mp hsf).1 p hmem
  · have hfr : Int.fract ((12500 : ℚ)/119) = 5/119 := by
      unfold Int.fract
      norm_num
    have hcomp : mtf_compose ⟨95000, .bullish, [⟨96200, 126/100⟩], []⟩
        ⟨true, some .bullish, some 94800, some 94700, true⟩ (some 95200) =
        mtfSetup ⟨95000, .bullish, [⟨96200, 126/100⟩], []⟩
          ⟨true, some .bullish, some 94800, some 94700, true⟩ .LONG 95200 := by
      simp only [mtf_compose, pyOrQ]
      norm_num
    rw [hcomp]
    rw [mtfSetup_long_spec _ _ 95200 94700 (3447/4760) 96200 (21/20)
      (some ⟨96200, 126/100⟩) rfl (by norm_num) (by norm_num [List.filter])
      (by norm_num) rfl (by norm_num [pyRound, roundHalfEven, hfr])]
    norm_num [pyRound, roundHalfEven, hfr]

/-- C2 witness: the LONG composition rule applied at the spec's
end-to-end scenario inputs. -/
theorem claim_C2_mtf_setup_witness :
    mtf_compose ⟨95000, .bullish, [⟨96200, 126/100⟩], []⟩
        ⟨true, some .bullish, some 94800, some 94700, true⟩ (some 95200) =
      .entry ⟨.LONG, 95200, pyRound (94700 * (998/1000)) 2,
        pyRound (3447/4760) 2, pyRound 96200 2, pyRound (21/20) 2,
        pyRound (if 0 < (3447/4760 : ℚ) then (21/20) / (3447/4760) else 0) 2,
        some 94800⟩ :=
  (claim_C2_mtf_setup.1 ⟨95000, .bullish, [⟨96200, 126/100⟩], []⟩
    ⟨true, some .bullish, some 94800, some 94700, true⟩ (some 95200)
    94700 95200 (3447/4760) 96200 (21/20) (some ⟨96200, 126/100⟩)
    (Or.inl rfl) rfl rfl rfl (by norm_num [pyOrQ]) (by norm_num)
    (by norm_num [List.filter]) (by norm_num) rfl
    (by
      have hfr : Int.fract ((12500 : ℚ)/119) = 5/119 := by
        unfold Int.fract
        norm_num
      norm_num [pyRound, roundHalfEven, hfr])).1

end Hashtrade
